import Mathlib

/-!
Verification development for the image-med-ai-api repository.

The definitions below are a shallow embedding of the authorization and
tenancy-scoping core of the service: the credential middleware's bearer-token
extraction (`src/utils/credentials_middleware.py`), the user and attendance
use-cases (`src/usecases/user.py`, `src/usecases/attendance.py`), their
controllers (`src/controllers/user_controller.py`,
`src/controllers/attendace_controller.py`) and the persistence layer
(`src/repositories/user_repository.py`,
`src/repositories/attendance_repository.py`).

Modelling conventions:
  - the database is an explicit `DB` value; repository functions take it and,
    for writes, return the new state alongside the result dictionary, mirroring
    the committed effect of the SQL in the source;
  - Python dictionaries produced by `.dict(exclude_unset=True)` are modelled
    as structures of `Option` fields where `none` means the key is absent;
  - `uuid.UUID(s)` is modelled by `normUUID`, reproducing the Python parser's
    acceptance (strip `urn:`/`uuid:`, braces and hyphens, require 32 hex
    digits) and returning the canonical lowercase hex form; database columns
    of uuid type hold values in that canonical form;
  - HTTP errors raised through `raise_http_error(code, msg)` are `.error`
    values of `Except ApiErr`; float box coordinates are represented by `Int`
    (no claim computes on them); timestamps by `Nat`.
-/

deriving instance DecidableEq for Except

namespace ImageMedAI

/-- Errors raised via `raise_http_error` in the source: an HTTP status code
plus a human-readable message. -/
structure ApiErr where
  code : Nat
  msg : String
deriving Repr, DecidableEq

/-- True for the characters `int(hex, 16)` accepts. -/
def isHexChar (c : Char) : Bool :=
  c.isDigit || (('a' ≤ c) && (c ≤ 'f')) || (('A' ≤ c) && (c ≤ 'F'))

/-- Fuel-driven model of Python `str.replace(pat, "")`: delete every
non-overlapping occurrence of `pat`, scanning left to right.  The fuel is
always instantiated above the input length, so it never runs out. -/
def removeAllAux (pat : List Char) : Nat → List Char → List Char
  | 0, l => l
  | _ + 1, [] => []
  | fuel + 1, c :: rest =>
    if pat.isPrefixOf (c :: rest) then
      removeAllAux pat fuel (List.drop pat.length (c :: rest))
    else c :: removeAllAux pat fuel rest

/-- Python `str.replace(pat, "")` on character lists. -/
def removeAll (pat l : List Char) : List Char :=
  removeAllAux pat (l.length + 1) l

/-- Lowercasing of a hex digit, the only characters `normUUID` lowercases. -/
def hexToLower (c : Char) : Char :=
  if c == 'A' then 'a' else if c == 'B' then 'b' else if c == 'C' then 'c'
  else if c == 'D' then 'd' else if c == 'E' then 'e'
  else if c == 'F' then 'f' else c

/-- The preprocessing `uuid.UUID` applies to its string argument: remove the
`urn:` and `uuid:` markers, strip surrounding braces, drop hyphens. -/
def uuidHexChars (s : String) : List Char :=
  let l := removeAll ("uuid:".toList) (removeAll ("urn:".toList) s.toList)
  let isBrace : Char → Bool := fun c => c == '\x7b' || c == '\x7d'
  let l := ((l.dropWhile isBrace).reverse.dropWhile isBrace).reverse
  l.filter (fun c => c != '-')

/-- Model of Python `uuid.UUID(s)`: `some h` with `h` the canonical lowercase
32-hex-digit form when `s` parses, `none` when the constructor raises
`ValueError`.  Two id strings denote the same stored uuid exactly when their
normal forms coincide. -/
def normUUID (s : String) : Option String :=
  let l := uuidHexChars s
  if l.length == 32 && l.all isHexChar then some (String.mk (l.map hexToLower))
  else none

/-- Row of the `users` table, with uuid columns in canonical form. -/
structure UserRow where
  id : String
  full_name : String
  email : String
  password_hash : String
  profile : String
  admin_id : Option String
  status : String
  created_at : String
deriving Repr, DecidableEq

/-- Row of the `health_units` table. -/
structure HealthUnitRow where
  id : String
  name : String
  admin_id : String
  status : String
deriving Repr, DecidableEq

/-- Row of the `attendances` table. -/
structure AttendanceRow where
  id : String
  professional_id : String
  health_unit_id : String
  admin_id : String
  model_used : String
  model_result : String
  expected_result : Option String
  correct_diagnosis : Option Bool
  image_base64 : String
  attendance_date : Nat
  observations : Option String
deriving Repr, DecidableEq

/-- Row of the `bounding_boxes` table. -/
structure BoxRow where
  id : String
  attendance_id : String
  x : Int
  y : Int
  width : Int
  height : Int
  confidence : Int
  observations : Option String
deriving Repr, DecidableEq

/-- The database state threaded through the repository functions.  `next_id`
feeds the server-side id generation of `INSERT ... RETURNING id`. -/
structure DB where
  users : List UserRow
  health_units : List HealthUnitRow
  attendances : List AttendanceRow
  boxes : List BoxRow
  next_id : Nat
deriving Repr, DecidableEq

/-- Identity claims decoded from the JWT and attached to
`request.state.user` by the middleware. -/
structure Claims where
  user_id : String
  full_name : String
  email : String
  profile : String
  admin_id : Option String
deriving Repr, DecidableEq

/-- Python dictionaries returned by the user repository: ordered key/value
lists whose values are `none` exactly for SQL `NULL`. -/
def PyDict := List (String × Option String)
deriving Repr, DecidableEq

/-- Dictionary built by `UserRepository.get_user_by_id` for a found row; note
that it contains the `password_hash` key. -/
def userByIdDict (u : UserRow) : PyDict :=
  [("id", some u.id), ("full_name", some u.full_name), ("email", some u.email),
   ("profile", some u.profile), ("password_hash", some u.password_hash),
   ("admin_id", u.admin_id), ("status", some u.status),
   ("created_at", some u.created_at)]

/-- Dictionary built by `UserRepository.get_users` for each row; the SELECT
result is projected without the `password_hash` key. -/
def userListDict (u : UserRow) : PyDict :=
  [("id", some u.id), ("full_name", some u.full_name), ("email", some u.email),
   ("profile", some u.profile), ("admin_id", u.admin_id),
   ("status", some u.status), ("created_at", some u.created_at)]

namespace UserRepository

/-- Model of `UserRepository.get_user_by_id`: parse the id (`ValueError` is
caught and yields `None`), then `SELECT * FROM users WHERE id = $1`. -/
def get_user_by_id (db : DB) (user_id : String) : Option UserRow :=
  match normUUID user_id with
  | none => none
  | some u => db.users.find? (fun usr => usr.id == u)

/-- Model of `UserRepository.get_user_by_email`:
`SELECT * FROM users WHERE email = $1`, first row or `None`. -/
def get_user_by_email (db : DB) (email : String) : Option UserRow :=
  db.users.find? (fun usr => usr.email == email)

/-- Model of `UserRepository.get_users`: with a (truthy) `admin_id` the query
is `SELECT * FROM users WHERE admin_id = $1 OR id = $1` and an unparsable
admin id yields `[]`; without it every user is returned.  Rows are projected
through `userListDict`. -/
def get_users (db : DB) (admin_id : Option String) : List PyDict :=
  match admin_id with
  | none => db.users.map userListDict
  | some a =>
    if a == "" then db.users.map userListDict
    else
      match normUUID a with
      | none => []
      | some u =>
        (db.users.filter (fun usr => usr.admin_id == some u || usr.id == u)).map userListDict

end UserRepository

namespace UserService

/-- Result payload of a successful `UserService.get_user_by_id`. -/
structure GetUserOk where
  message : String
  user : PyDict
  status_code : Nat
deriving Repr, DecidableEq

/-- Result payload of a successful `UserService.get_users`. -/
structure GetUsersOk where
  message : String
  users : List PyDict
  count : Nat
  status_code : Nat
deriving Repr, DecidableEq

/-- Model of `UserService.get_user_by_id`: fetch the row, and on success
strip the `password_hash` key from the dictionary before responding; a
missing user raises 404. -/
def get_user_by_id (db : DB) (user_id : String) : Except ApiErr GetUserOk :=
  match UserRepository.get_user_by_id db user_id with
  | some u =>
    .ok { message := "User retrieved successfully",
          user := (userByIdDict u).filter (fun kv => kv.1 ≠ "password_hash"),
          status_code := 200 }
  | none => .error ⟨404, "User not found"⟩

/-- Model of `UserService.get_users`: fetch the rows and strip the
`password_hash` key from every dictionary before responding. -/
def get_users (db : DB) (admin_id : Option String) : Except ApiErr GetUsersOk :=
  let users := UserRepository.get_users db admin_id
  let users_without_password :=
    users.map (fun d => d.filter (fun kv => kv.1 ≠ "password_hash"))
  .ok { message := "Users retrieved successfully",
        users := users_without_password,
        count := users_without_password.length,
        status_code := 200 }

end UserService

/-- Payload of the `UpdateUser` request model after `.dict(exclude_unset=True)`:
`none` means the key is absent from the update. -/
structure UpdateUserPayload where
  full_name : Option String := none
  email : Option String := none
  profile : Option String := none
  admin_id : Option String := none
  status : Option String := none
  password_hash : Option String := none
deriving Repr, DecidableEq

/-- Result dictionary of the user repository write operations. -/
structure WriteResult where
  ident : String
  ok : Bool
deriving Repr, DecidableEq

namespace UserRepository

/-- Model of `UserRepository.update_user`.  The SQL sets `full_name`, `email`,
`profile`, `admin_id` and `status` unconditionally, so a payload missing
`full_name`, `email` or `profile` raises `KeyError`, which the generic handler
turns into a not-updated result; `status` defaults to `active` and a missing
`admin_id` is written as NULL.  An unparsable `admin_id` or `user_id` also
yields a not-updated result, with the state unchanged. -/
def update_user (db : DB) (user_id : String) (p : UpdateUserPayload) :
    WriteResult × DB :=
  match normUUID user_id with
  | none => (⟨"", false⟩, db)
  | some uid =>
    let parsedAdmin : Option (Option String) :=
      match p.admin_id with
      | none => some none
      | some a => if a == "" then none else (normUUID a).map some
    match parsedAdmin with
    | none => (⟨"", false⟩, db)
    | some admin_new =>
      match p.full_name, p.email, p.profile with
      | some fn, some em, some pr =>
        if (db.users.find? (fun usr => usr.id == uid)).isSome then
          (⟨user_id, true⟩,
           { db with users := db.users.map (fun usr =>
               if usr.id == uid then
                 { usr with full_name := fn, email := em, profile := pr,
                            admin_id := admin_new,
                            status := p.status.getD "active" }
               else usr) })
        else (⟨"", false⟩, db)
      | _, _, _ => (⟨"", false⟩, db)

end UserRepository

namespace UserService

/-- Result payload of a successful `UserService.update_user`. -/
structure UpdateUserOk where
  message : String
  user_id : String
  status_code : Nat
deriving Repr, DecidableEq

/-- Model of `UserService.update_user`.  `is_email_valid` stands for the
external email validator and `hashPassword` for the password-hashing
collaborator, both out of scope of the core.  Existence is checked first
(404), then email/profile/status validation (422), then the repository
write (500 on a failed write). -/
def update_user (db : DB) (is_email_valid : String → Bool)
    (hashPassword : String → String) (user_id : String)
    (p : UpdateUserPayload) : Except ApiErr UpdateUserOk × DB :=
  match UserRepository.get_user_by_id db user_id with
  | none => (.error ⟨404, "User not found"⟩, db)
  | some _ =>
    match p.email with
    | some em =>
      if !is_email_valid em then (.error ⟨422, "Invalid email format"⟩, db)
      else update_user_validated db hashPassword user_id p
    | none => update_user_validated db hashPassword user_id p
where
  /-- Profile/status validation and the write, shared by both email branches. -/
  update_user_validated (db : DB) (hashPassword : String → String)
      (user_id : String) (p : UpdateUserPayload) :
      Except ApiErr UpdateUserOk × DB :=
    if p.profile.isSome &&
       !(["administrator", "professional"].contains (p.profile.getD "")) then
      (.error ⟨422, "Invalid profile"⟩, db)
    else if p.status.isSome &&
            !(["active", "inactive"].contains (p.status.getD "")) then
      (.error ⟨422, "Invalid status"⟩, db)
    else
      let p := { p with password_hash := p.password_hash.map hashPassword }
      let r := UserRepository.update_user db user_id p
      if r.1.ok then
        (.ok { message := "User updated successfully", user_id := user_id,
               status_code := 200 }, r.2)
      else (.error ⟨500, "Failed to update user"⟩, r.2)

end UserService

namespace UserController

/-- Model of the permission gate shared by `UserController.get_user_by_id`
and `UserController.update_user`: the request is forwarded to the service
unless the target id differs from the caller's id and the caller is not an
administrator. -/
def can_access_user_route (caller : Claims) (user_id : String) : Bool :=
  !(user_id != caller.user_id && caller.profile != "administrator")

/-- Model of `UserController.get_user_by_id`: apply the gate, 403 on failure,
otherwise delegate to the service. -/
def get_user_by_id (db : DB) (caller : Claims) (user_id : String) :
    Except ApiErr UserService.GetUserOk :=
  if can_access_user_route caller user_id then
    UserService.get_user_by_id db user_id
  else .error ⟨403, "You do not have permission to access this user data"⟩

/-- Model of `UserController.update_user`: apply the gate, 403 on failure,
otherwise delegate to the service. -/
def update_user (db : DB) (is_email_valid : String → Bool)
    (hashPassword : String → String) (caller : Claims) (user_id : String)
    (p : UpdateUserPayload) : Except ApiErr UserService.UpdateUserOk × DB :=
  if can_access_user_route caller user_id then
    UserService.update_user db is_email_valid hashPassword user_id p
  else (.error ⟨403, "You do not have permission to update this user data"⟩, db)

end UserController

/-- Modelled from the spec: the token adapter (`src/adapters/token_adapter.py`
is not part of the sources).  Per the spec the identity token is a signed,
time-bound encoding of exactly the payload
`(user_id, full_name, email, profile, admin_id)`; this structure is that
payload, and `TokenAdapter.create_token` below packs its arguments into it. -/
structure TokenClaims where
  user_id : String
  full_name : String
  email : String
  profile : String
  admin_id : Option String
deriving Repr, DecidableEq

namespace TokenAdapter

/-- Modelled from the spec: `TokenAdapter.create_token` issues a token whose
claims carry exactly the five argument fields (signature and expiry are
outside the model). -/
def create_token (user_id full_name email profile : String)
    (admin_id : Option String) : TokenClaims :=
  { user_id := user_id, full_name := full_name, email := email,
    profile := profile, admin_id := admin_id }

end TokenAdapter

namespace UserService

/-- Result payload of a successful `UserService.login_user`. -/
structure LoginOk where
  message : String
  user_name : String
  user_id : String
  profile : String
  token : TokenClaims
  status_code : Nat
deriving Repr, DecidableEq

/-- Model of `UserService.login_user`.  `verifyPassword` stands for the
password-hashing collaborator's verification (plaintext, stored hash → bool).
Order of checks as in the source: resolve by email (404), status must be
`active` (403, before any password verification), password verification
(401), then token issuance carrying the stored profile and admin_id. -/
def login_user (db : DB) (verifyPassword : String → String → Bool)
    (email password : String) : Except ApiErr LoginOk :=
  match UserRepository.get_user_by_email db email with
  | none => .error ⟨404, "User not found"⟩
  | some u =>
    if u.status != "active" then .error ⟨403, "User account is inactive"⟩
    else if !verifyPassword password u.password_hash then
      .error ⟨401, "Incorrect password"⟩
    else
      .ok { message := "Login successful", user_name := u.full_name,
            user_id := u.id, profile := u.profile,
            token := TokenAdapter.create_token u.id u.full_name email
                       u.profile u.admin_id,
            status_code := 200 }

end UserService

/-- Outcome of a JWT decode attempt by the token adapter, as seen by the
middleware's exception handlers. -/
inductive TokenErr where
  | expired : TokenErr
  | invalid : String → TokenErr
deriving Repr, DecidableEq

/-- Model of Python `str.split(' ')`: cut at every single space, keeping
empty pieces (structural recursion on the accumulator and the input). -/
def splitOnSpaceAux (acc : List Char) : List Char → List (List Char)
  | [] => [acc.reverse]
  | c :: rest =>
    if c == ' ' then acc.reverse :: splitOnSpaceAux [] rest
    else splitOnSpaceAux (c :: acc) rest

/-- Python `str.split(' ')` on character lists. -/
def splitOnSpace (l : List Char) : List (List Char) :=
  splitOnSpaceAux [] l

namespace AuthMiddleware

/-- Model of the bearer extraction inside `AuthMiddleware._verify_token`:
`token_value.split(' ')[1] if token_value.startswith('Bearer ') else
token_value`.  `none` models the `IndexError` branch (unreachable, since a
string starting with `Bearer ` always splits into at least two pieces). -/
def extractToken (header : String) : Option String :=
  if ("Bearer ".toList).isPrefixOf header.toList then
    ((splitOnSpace header.toList)[1]?).map String.mk
  else some header

/-- Model of `AuthMiddleware._verify_token`.  `decode` stands for
`TokenAdapter.decode_token`; a missing or empty Authorization header is
rejected 401 before extraction, and decode failures map onto 401 responses. -/
def verify_token (decode : String → Except TokenErr Claims)
    (header : Option String) : Except ApiErr Claims :=
  match header with
  | none => .error ⟨401, "Authorization token is required"⟩
  | some h =>
    if h == "" then .error ⟨401, "Authorization token is required"⟩
    else
      match extractToken h with
      | none => .error ⟨401, "Invalid Authorization header format"⟩
      | some t =>
        match decode t with
        | .ok c => .ok c
        | .error .expired => .error ⟨401, "Token has expired"⟩
        | .error (.invalid m) => .error ⟨401, "Invalid token: " ++ m⟩

end AuthMiddleware

/-- Bounding-box dictionary inside a request payload; `none` models an absent
key, which the use-case validation rejects for the four required fields. -/
structure BoxPayload where
  x : Option Int := none
  y : Option Int := none
  width : Option Int := none
  height : Option Int := none
  confidence : Option Int := none
  observations : Option String := none
deriving Repr, DecidableEq

/-- A box payload carries the four required fields `x`, `y`, `width`,
`height`, as checked by the use-case validation loops. -/
def boxFieldsOk (b : BoxPayload) : Bool :=
  b.x.isSome && b.y.isSome && b.width.isSome && b.height.isSome

/-- Row built by the bounding-box INSERT: `confidence` defaults to 0 and the
required coordinates have been validated present by the use-cases before
every insert (the defaults below are therefore never taken on reachable
paths). -/
def mkBoxRow (attendance_id : String) (b : BoxPayload) : BoxRow :=
  { id := "", attendance_id := attendance_id, x := b.x.getD 0, y := b.y.getD 0,
    width := b.width.getD 0, height := b.height.getD 0,
    confidence := b.confidence.getD 0, observations := b.observations }

/-- The bounding boxes stored for one attendance:
`SELECT * FROM bounding_boxes WHERE attendance_id = $1`. -/
def boxesFor (db : DB) (attendance_id : String) : List BoxRow :=
  db.boxes.filter (fun b => b.attendance_id == attendance_id)

/-- Attendance dictionary built by the attendance repository reads; the
`bounding_boxes` key is present exactly when `model_used = breast`. -/
structure AttendanceDict where
  id : String
  professional_id : String
  health_unit_id : String
  admin_id : String
  model_used : String
  model_result : String
  expected_result : Option String
  correct_diagnosis : Option Bool
  image_base64 : String
  attendance_date : Nat
  observations : Option String
  bounding_boxes : Option (List BoxRow)
deriving Repr, DecidableEq

/-- Dictionary projection of an attendance row, with the boxes attached for
the breast model, as built by both repository read operations. -/
def attendanceDictOf (db : DB) (a : AttendanceRow) : AttendanceDict :=
  { id := a.id, professional_id := a.professional_id,
    health_unit_id := a.health_unit_id, admin_id := a.admin_id,
    model_used := a.model_used, model_result := a.model_result,
    expected_result := a.expected_result,
    correct_diagnosis := a.correct_diagnosis,
    image_base64 := a.image_base64, attendance_date := a.attendance_date,
    observations := a.observations,
    bounding_boxes :=
      if a.model_used == "breast" then some (boxesFor db a.id) else none }

/-- Insertion step of the `ORDER BY attendance_date DESC` model. -/
def insertByDateDesc (a : AttendanceRow) :
    List AttendanceRow → List AttendanceRow
  | [] => [a]
  | b :: rest =>
    if a.attendance_date ≤ b.attendance_date then b :: insertByDateDesc a rest
    else a :: b :: rest

/-- Model of `ORDER BY attendance_date DESC` (insertion sort, newest first). -/
def sortByDateDesc : List AttendanceRow → List AttendanceRow
  | [] => []
  | a :: rest => insertByDateDesc a (sortByDateDesc rest)

/-- One optional uuid filter of `AttendanceRepository.get_attendances`: a
missing or empty filter constrains nothing, an unparsable one is silently
dropped (only an error line is logged), a parsed one compares for equality. -/
def uuidFilterMatches (field : String) (filt : Option String) : Bool :=
  match filt with
  | none => true
  | some f =>
    if f == "" then true
    else
      match normUUID f with
      | none => true
      | some u => field == u

/-- The `model_used` filter of `AttendanceRepository.get_attendances`:
constrains only when provided and non-empty. -/
def modelFilterMatches (field : String) (filt : Option String) : Bool :=
  match filt with
  | none => true
  | some m => if m == "" then true else field == m

namespace AttendanceRepository

/-- Model of `AttendanceRepository.get_attendances`: conjoin the four
optional filters, order by date descending, apply OFFSET and LIMIT, and
project each row to its dictionary. -/
def get_attendances (db : DB)
    (admin_id health_unit_id professional_id model_used : Option String)
    (limit offset : Nat) : List AttendanceDict :=
  let rows := db.attendances.filter (fun a =>
    uuidFilterMatches a.admin_id admin_id &&
    uuidFilterMatches a.health_unit_id health_unit_id &&
    uuidFilterMatches a.professional_id professional_id &&
    modelFilterMatches a.model_used model_used)
  (((sortByDateDesc rows).drop offset).take limit).map (attendanceDictOf db)

/-- Model of `AttendanceRepository.get_attendance_by_id`: an unparsable id
yields `None` (the `ValueError` handler), otherwise the row with its boxes. -/
def get_attendance_by_id (db : DB) (attendance_id : String) :
    Option AttendanceDict :=
  match normUUID attendance_id with
  | none => none
  | some u => (db.attendances.find? (fun a => a.id == u)).map (attendanceDictOf db)

end AttendanceRepository

/-- Payload of the `UpdateAttendance` request model after
`.dict(exclude_unset=True)`: `none` means the key is absent. -/
structure UpdateAttendancePayload where
  professional_id : Option String := none
  health_unit_id : Option String := none
  admin_id : Option String := none
  model_used : Option String := none
  model_result : Option String := none
  expected_result : Option String := none
  correct_diagnosis : Option Bool := none
  observations : Option String := none
  bounding_boxes : Option (List BoxPayload) := none
deriving Repr, DecidableEq

/-- Parsing of an optional uuid-typed payload field inside the update
repository: an absent field stays absent; a present one must parse (an empty
string slips past the truthiness guard and then fails at the uuid column
write, so it also ends in the failure branch).  `none` is overall failure. -/
def parseOptUUIDField : Option String → Option (Option String)
  | none => some none
  | some s => if s == "" then none else (normUUID s).map some

/-- The seven columns `AttendanceRepository.update_attendance` can SET; note
that `model_used` and `bounding_boxes` are not among them. -/
def hasUpdateParts (pp hp ap : Option String) (p : UpdateAttendancePayload) :
    Bool :=
  pp.isSome || hp.isSome || ap.isSome || p.model_result.isSome ||
  p.expected_result.isSome || p.correct_diagnosis.isSome ||
  p.observations.isSome

/-- The UPDATE statement applied to the matching row: each provided column is
set, the others keep their stored value; `model_used` is never touched. -/
def applyScalarUpdates (a : AttendanceRow) (pp hp ap : Option String)
    (p : UpdateAttendancePayload) : AttendanceRow :=
  { a with
    professional_id := pp.getD a.professional_id,
    health_unit_id := hp.getD a.health_unit_id,
    admin_id := ap.getD a.admin_id,
    model_result := p.model_result.getD a.model_result,
    expected_result :=
      match p.expected_result with
      | some v => some v
      | none => a.expected_result,
    correct_diagnosis :=
      match p.correct_diagnosis with
      | some v => some v
      | none => a.correct_diagnosis,
    observations :=
      match p.observations with
      | some v => some v
      | none => a.observations }

namespace AttendanceRepository

/-- Model of `AttendanceRepository.update_attendance`.  After parsing the
ids, the transaction fetches the stored `model_used` (a missing row, or a row
whose `model_used` is empty and hence falsy, is reported not found), applies
the scalar UPDATE when at least one settable column is provided, and — only
then, and only when the STORED model is `breast` — replaces the bounding
boxes by deleting all previous ones and inserting the payload's.  Without any
settable column the call reports `updated = False` and changes nothing. -/
def update_attendance (db : DB) (attendance_id : String)
    (p : UpdateAttendancePayload) : WriteResult × DB :=
  match normUUID attendance_id with
  | none => (⟨"", false⟩, db)
  | some u =>
    match parseOptUUIDField p.professional_id,
          parseOptUUIDField p.health_unit_id,
          parseOptUUIDField p.admin_id with
    | some pp, some hp, some ap =>
      match db.attendances.find? (fun a => a.id == u) with
      | none => (⟨"", false⟩, db)
      | some a =>
        if a.model_used == "" then (⟨"", false⟩, db)
        else if hasUpdateParts pp hp ap p then
          let attendances := db.attendances.map (fun r =>
            if r.id == u then applyScalarUpdates r pp hp ap p else r)
          let boxes :=
            if a.model_used == "breast" then
              match p.bounding_boxes with
              | some bs =>
                db.boxes.filter (fun b => b.attendance_id != u) ++
                  bs.map (mkBoxRow u)
              | none => db.boxes
            else db.boxes
          (⟨attendance_id, true⟩,
           { db with attendances := attendances, boxes := boxes })
        else (⟨attendance_id, false⟩, db)
    | _, _, _ => (⟨"", false⟩, db)

/-- Model of `AttendanceRepository.delete_attendance`: the boxes are deleted
first and the transaction commits even when the attendance row itself is
absent (no exception is raised), so orphan boxes are removed either way. -/
def delete_attendance (db : DB) (attendance_id : String) : WriteResult × DB :=
  match normUUID attendance_id with
  | none => (⟨"", false⟩, db)
  | some u =>
    let db := { db with boxes := db.boxes.filter (fun b => b.attendance_id != u) }
    if (db.attendances.find? (fun a => a.id == u)).isSome then
      (⟨attendance_id, true⟩,
       { db with attendances := db.attendances.filter (fun a => a.id != u) })
    else (⟨"", false⟩, db)

end AttendanceRepository

/-- Payload of the `CreateAttendance` request model (all keys present after
`.dict()`; the optional ones may hold NULL). -/
structure CreateAttendancePayload where
  health_unit_id : String
  model_used : String
  model_result : String
  expected_result : Option String := none
  correct_diagnosis : Option Bool := none
  image_base64 : String
  observations : Option String := none
  bounding_boxes : Option (List BoxPayload) := none
deriving Repr, DecidableEq

namespace AttendanceRepository

/-- Model of `AttendanceRepository.add_attendance`: parse the three id
fields (`ValueError` yields a not-added result), insert the attendance row
with a server-generated id, and insert the boxes inside the same transaction
when the model is `breast` and the box list is non-empty. -/
def add_attendance (db : DB) (data : CreateAttendancePayload)
    (professional_id admin_id : String) : WriteResult × DB :=
  match normUUID professional_id, normUUID data.health_unit_id,
        normUUID admin_id with
  | some pu, some hu, some au =>
    let newId := "generated-" ++ toString db.next_id
    let row : AttendanceRow :=
      { id := newId, professional_id := pu, health_unit_id := hu,
        admin_id := au, model_used := data.model_used,
        model_result := data.model_result,
        expected_result := data.expected_result,
        correct_diagnosis := data.correct_diagnosis,
        image_base64 := data.image_base64,
        attendance_date := db.next_id, observations := data.observations }
    let bs := data.bounding_boxes.getD []
    let boxes :=
      if data.model_used == "breast" && !bs.isEmpty then
        db.boxes ++ bs.map (mkBoxRow newId)
      else db.boxes
    (⟨newId, true⟩,
     { db with attendances := db.attendances ++ [row], boxes := boxes,
               next_id := db.next_id + 1 })
  | _, _, _ => (⟨"", false⟩, db)

end AttendanceRepository

namespace HealthUnitRepository

/-- Modelled from the spec: `HealthUnitRepository.get_health_unit_by_id`
(the file `src/repositories/health_unit_repository.py` is not among the
sources).  Per the persistence-gateway contract it returns the stored unit
or an empty result, with a malformed identifier rejected before storage,
like the sibling repositories. -/
def get_health_unit_by_id (db : DB) (unit_id : String) :
    Option HealthUnitRow :=
  match normUUID unit_id with
  | none => none
  | some u => db.health_units.find? (fun h => h.id == u)

end HealthUnitRepository

/-- The fixed model enumeration checked by the attendance use-cases. -/
def valid_models : List String :=
  ["respiratory", "tuberculosis", "osteoporosis", "breast"]

/-- Truncation applied to `image_base64` in list results and in single-item
results without `include_image`. -/
def truncImage (s : String) : String :=
  String.mk (s.toList.take 100 ++ "...".toList)

namespace AttendanceService

/-- Result payload of a successful `AttendanceService.get_attendance_by_id`. -/
structure AttendanceOk where
  message : String
  attendance : AttendanceDict
  status_code : Nat
deriving Repr, DecidableEq

/-- Result payload of a successful `AttendanceService.get_attendances`. -/
structure AttendancesOk where
  message : String
  attendances : List AttendanceDict
  count : Nat
  status_code : Nat
deriving Repr, DecidableEq

/-- Result payload of the successful attendance write operations. -/
structure MutationOk where
  message : String
  attendance_id : String
  status_code : Nat
deriving Repr, DecidableEq

/-- Model of `AttendanceService.get_attendance_by_id`: fetch by id (404 when
absent); unless the full image is requested, truncate `image_base64`.  No
caller identity is consulted. -/
def get_attendance_by_id (db : DB) (attendance_id : String)
    (include_image : Bool) : Except ApiErr AttendanceOk :=
  match AttendanceRepository.get_attendance_by_id db attendance_id with
  | some d =>
    let d := if include_image then d
             else { d with image_base64 := truncImage d.image_base64 }
    .ok { message := "Attendance retrieved successfully", attendance := d,
          status_code := 200 }
  | none => .error ⟨404, "Attendance not found"⟩

/-- Model of `AttendanceService.get_attendances`: validate a provided
`model_used` filter (422 outside the enumeration), query, truncate every
image. -/
def get_attendances (db : DB)
    (admin_id health_unit_id professional_id model_used : Option String)
    (limit offset : Nat) : Except ApiErr AttendancesOk :=
  if model_used.isSome && model_used ≠ some "" &&
     !(valid_models.contains (model_used.getD "")) then
    .error ⟨422, "Invalid model"⟩
  else
    let ds := AttendanceRepository.get_attendances db admin_id health_unit_id
      professional_id model_used limit offset
    let ds := ds.map (fun d => { d with image_base64 := truncImage d.image_base64 })
    .ok { message := "Attendances retrieved successfully", attendances := ds,
          count := ds.length, status_code := 200 }

/-- Permission check shared by update and delete: the caller must be the
attendance's professional or hold the administrator profile (the
administrator's own tenancy is not compared). -/
def canMutate (caller : UserRow) (existing : AttendanceDict) : Bool :=
  !(caller.id != existing.professional_id && caller.profile != "administrator")

/-- Model of `AttendanceService.update_attendance`: existence of the
attendance (404), existence of the acting user (404), permission (403),
`model_used` validation when provided (422), bounding-box gate — boxes on a
stored non-breast model are rejected 400 only when the payload carries no
`model_used` key at all — and required box fields (400), then the repository
write (500 when it reports not updated). -/
def update_attendance (db : DB) (attendance_id : String)
    (p : UpdateAttendancePayload) (professional_id : String) :
    Except ApiErr MutationOk × DB :=
  match AttendanceRepository.get_attendance_by_id db attendance_id with
  | none => (.error ⟨404, "Attendance not found"⟩, db)
  | some existing =>
    match UserRepository.get_user_by_id db professional_id with
    | none => (.error ⟨404, "Professional not found"⟩, db)
    | some prof =>
      if !canMutate prof existing then
        (.error ⟨403, "You do not have permission to update this attendance"⟩, db)
      else if p.model_used.isSome &&
              !(valid_models.contains (p.model_used.getD "")) then
        (.error ⟨422, "Invalid model"⟩, db)
      else
        match p.bounding_boxes with
        | some bs =>
          if existing.model_used != "breast" && p.model_used.isNone then
            (.error ⟨400, "Bounding boxes can only be added to breast cancer model attendances"⟩, db)
          else if !(bs.all boxFieldsOk) then
            (.error ⟨400, "Missing required field in bounding box"⟩, db)
          else update_attendance_write db attendance_id p
        | none => update_attendance_write db attendance_id p
where
  /-- The final repository call shared by the box and no-box branches. -/
  update_attendance_write (db : DB) (attendance_id : String)
      (p : UpdateAttendancePayload) : Except ApiErr MutationOk × DB :=
    match AttendanceRepository.update_attendance db attendance_id p with
    | (r, db2) =>
      if r.ok then
        (.ok { message := "Attendance updated successfully",
               attendance_id := attendance_id, status_code := 200 }, db2)
      else (.error ⟨500, "Failed to update attendance"⟩, db2)

/-- Model of `AttendanceService.delete_attendance`: existence (404), acting
user (404), permission (403), then the repository delete (500 when it
reports not deleted). -/
def delete_attendance (db : DB) (attendance_id : String)
    (professional_id : String) : Except ApiErr MutationOk × DB :=
  match AttendanceRepository.get_attendance_by_id db attendance_id with
  | none => (.error ⟨404, "Attendance not found"⟩, db)
  | some existing =>
    match UserRepository.get_user_by_id db professional_id with
    | none => (.error ⟨404, "Professional not found"⟩, db)
    | some prof =>
      if !canMutate prof existing then
        (.error ⟨403, "You do not have permission to delete this attendance"⟩, db)
      else
        match AttendanceRepository.delete_attendance db attendance_id with
        | (r, db2) =>
          if r.ok then
            (.ok { message := "Attendance deleted successfully",
                   attendance_id := attendance_id, status_code := 200 }, db2)
          else (.error ⟨500, "Failed to delete attendance"⟩, db2)

/-- Model of `AttendanceService.add_attendance`, in source order: resolve the
professional (404), require the professional profile (403), require an
owning administrator (400), require and resolve the health unit (400/404),
require the same administrator (403), validate `model_used` (422), validate
breast bounding boxes (400), require a non-empty image (400), persist. -/
def add_attendance (db : DB) (data : CreateAttendancePayload)
    (professional_id : String) : Except ApiErr MutationOk × DB :=
  match UserRepository.get_user_by_id db professional_id with
  | none => (.error ⟨404, "Professional not found"⟩, db)
  | some prof =>
    if prof.profile != "professional" then
      (.error ⟨403, "User is not a healthcare professional"⟩, db)
    else
      match prof.admin_id with
      | none => (.error ⟨400, "Professional is not associated with an administrator"⟩, db)
      | some admin_id =>
        if admin_id == "" then
          (.error ⟨400, "Professional is not associated with an administrator"⟩, db)
        else if data.health_unit_id == "" then
          (.error ⟨400, "Health unit ID is required"⟩, db)
        else
          match HealthUnitRepository.get_health_unit_by_id db data.health_unit_id with
          | none => (.error ⟨404, "Health unit not found"⟩, db)
          | some hu =>
            if hu.admin_id != admin_id then
              (.error ⟨403, "Health unit belongs to a different administrator"⟩, db)
            else if !(valid_models.contains data.model_used) then
              (.error ⟨422, "Invalid model"⟩, db)
            else if data.model_used == "breast" &&
                    !((data.bounding_boxes.getD []).all boxFieldsOk) then
              (.error ⟨400, "Missing required field in bounding box"⟩, db)
            else if data.image_base64 == "" then
              (.error ⟨400, "Image in base64 format is required"⟩, db)
            else
              match AttendanceRepository.add_attendance db data
                  professional_id admin_id with
              | (r, db2) =>
                if r.ok then
                  (.ok { message := "Attendance record added successfully",
                         attendance_id := r.ident, status_code := 201 }, db2)
                else (.error ⟨500, "Error adding attendance record to database"⟩, db2)

end AttendanceService

namespace AttendanceController

/-- Model of `AttendanceController.get_attendance_by_id`: the caller's
claims are only recorded for auditing; no permission check is applied before
delegating to the service (the comment in the source defers the check to the
service, which performs none). -/
def get_attendance_by_id (db : DB) (caller : Claims)
    (attendance_id : String) (include_image : Bool) :
    Except ApiErr AttendanceService.AttendanceOk :=
  let _ := caller
  AttendanceService.get_attendance_by_id db attendance_id include_image

/-- Model of `AttendanceController.get_attendances`: an administrator is
scoped to (own id, no professional filter); a professional to (their
admin_id, own id). -/
def get_attendances (db : DB) (caller : Claims)
    (health_unit_id model_used : Option String) (limit offset : Nat) :
    Except ApiErr AttendanceService.AttendancesOk :=
  let admin_id := if caller.profile == "administrator" then some caller.user_id
                  else caller.admin_id
  let professional_id := if caller.profile == "administrator" then none
                         else some caller.user_id
  AttendanceService.get_attendances db admin_id health_unit_id
    professional_id model_used limit offset

end AttendanceController

/-- The HTTP status code of an error result, `none` for a success. -/
def errCode {α : Type} : Except ApiErr α → Option Nat
  | .error e => some e.code
  | .ok _ => none

/-- Key/value pairs surviving a filter on the key never expose that key. -/
theorem key_not_mem_of_filter_ne (key : String) (d : PyDict) :
    key ∉ (List.filter (fun kv => kv.1 ≠ key) d).map Prod.fst := by
  intro hmem
  rcases List.mem_map.mp hmem with ⟨kv, hkv, hfst⟩
  rcases List.mem_filter.mp hkv with ⟨_, hne⟩
  exact (of_decide_eq_true hne) hfst

/-- The attendance UPDATE never changes any row's id or `model_used`. -/
theorem update_attendance_ids_models (db : DB) (attendance_id : String)
    (p : UpdateAttendancePayload) :
    ((AttendanceRepository.update_attendance db attendance_id p).2.attendances.map
       (fun a => (a.id, a.model_used))) =
    db.attendances.map (fun a => (a.id, a.model_used)) := by
  unfold AttendanceRepository.update_attendance
  split
  · rfl
  · split
    · split
      · rfl
      · rename_i a _
        split
        · rfl
        · split
          · simp only [List.map_map]
            apply List.map_congr_left
            intro r _
            simp only [Function.comp]
            split
            · simp [applyScalarUpdates]
            · rfl
          · rfl
    · rfl

/-- The attendance UPDATE leaves the box table untouched when the stored
model of the targeted row is not `breast`. -/
theorem update_attendance_boxes_nonbreast (db : DB) (attendance_id : String)
    (p : UpdateAttendancePayload) (u : String) (a : AttendanceRow)
    (h1 : normUUID attendance_id = some u)
    (h2 : db.attendances.find? (fun r => r.id == u) = some a)
    (h3 : (a.model_used == "breast") = false) :
    (AttendanceRepository.update_attendance db attendance_id p).2.boxes =
      db.boxes := by
  simp only [AttendanceRepository.update_attendance, h1, h2]
  split
  · split
    · rfl
    · split
      · simp [h3]
      · rfl
  · rfl

/-- The mutation permission in canonical propositional form. -/
theorem canMutate_iff (prof : UserRow) (d : AttendanceDict) :
    AttendanceService.canMutate prof d = true ↔
      (prof.id = d.professional_id ∨ prof.profile = "administrator") := by
  simp [AttendanceService.canMutate, not_and_or]

/-- Sample tenant A administrator id (canonical uuid hex form). -/
def adminA : String := "aaaaaaaaaaaaaaaaaaaaaaaaaaaaaaaa"

/-- Sample tenant B administrator id. -/
def adminB : String := "bbbbbbbbbbbbbbbbbbbbbbbbbbbbbbbb"

/-- Sample professional id, owned by tenant A. -/
def profP : String := "11111111111111111111111111111111"

/-- Sample professional id, owned by tenant B. -/
def profQ : String := "22222222222222222222222222222222"

/-- Sample health-unit id of tenant A. -/
def huA : String := "33333333333333333333333333333333"

/-- Sample health-unit id of tenant B. -/
def huB : String := "44444444444444444444444444444444"

/-- Sample attendance id recorded under tenant B. -/
def attB : String := "55555555555555555555555555555555"

/-- Sample attendance id recorded under tenant A. -/
def attA : String := "66666666666666666666666666666666"

/-- Two-tenant database: administrators A and B, one professional each, one
attendance recorded by B's professional in B's health unit. -/
def dbC1 : DB :=
  { users := [
      ⟨adminA, "Admin A", "a@x.com", "ha", "administrator", none, "active", "2024"⟩,
      ⟨adminB, "Admin B", "b@x.com", "hb", "administrator", none, "active", "2024"⟩,
      ⟨profP, "Prof P", "p@x.com", "hp", "professional", some adminA, "active", "2024"⟩,
      ⟨profQ, "Prof Q", "q@x.com", "hq", "professional", some adminB, "active", "2024"⟩],
    health_units := [⟨huB, "Unit B", adminB, "active"⟩],
    attendances := [⟨attB, profQ, huB, adminB, "respiratory", "positive", none,
                     none, "imgB", 5, none⟩],
    boxes := [],
    next_id := 0 }

/-- Decoded claims of tenant A's professional. -/
def claimsC1P : Claims := ⟨profP, "Prof P", "p@x.com", "professional", some adminA⟩

/-- C1: tenancy isolation fails on the single-item read.  At the concrete
failing input, professional P (administrator A) requests administrator B's
attendance by id: the controller applies no ownership check and the service
returns the foreign attendance with HTTP 200, although P's list call excludes
it and P's update and delete of it are rejected 403.  The claim's get-leg is
therefore violated by the code, against the stated intent that the
permission check happens in the service. -/
theorem c1_cross_tenant_attendance_read :
    AttendanceController.get_attendance_by_id dbC1 claimsC1P attB false =
      .ok ⟨"Attendance retrieved successfully",
           ⟨attB, profQ, huB, adminB, "respiratory", "positive", none, none,
            "imgB...", 5, none, none⟩, 200⟩
    ∧ claimsC1P.profile = "professional"
    ∧ claimsC1P.admin_id = some adminA
    ∧ adminA ≠ adminB
    ∧ AttendanceController.get_attendances dbC1 claimsC1P none none 100 0 =
        .ok ⟨"Attendances retrieved successfully", [], 0, 200⟩
    ∧ errCode (AttendanceService.update_attendance dbC1 attB
        { model_result := some "changed" } profP).1 = some 403
    ∧ errCode (AttendanceService.delete_attendance dbC1 attB profP).1 =
        some 403 := by
  decide

/-- The user-route gate in canonical propositional form. -/
theorem can_access_user_route_iff (caller : Claims) (uid : String) :
    UserController.can_access_user_route caller uid = true ↔
      (uid = caller.user_id ∨ caller.profile = "administrator") := by
  simp [UserController.can_access_user_route, not_and_or]

/-- Single-tenant database holding only tenant A's professional, used to
probe the user-access gate from a foreign administrator. -/
def dbC2 : DB :=
  { users := [⟨profP, "Prof P", "p@x.com", "hp", "professional", some adminA,
               "active", "2024"⟩],
    health_units := [], attendances := [], boxes := [], next_id := 0 }

/-- Decoded claims of tenant B's administrator. -/
def claimsC2B : Claims := ⟨adminB, "Admin B", "b@x.com", "administrator", none⟩

/-- C2 counterexample: administrator B reads professional P although P is
owned by administrator A — the claim requires a 403 for every caller that is
neither the target nor the target's owning administrator, but the code's
gate never consults the target's `admin_id`. -/
theorem c2_foreign_admin_reads_user :
    UserController.get_user_by_id dbC2 claimsC2B profP =
      .ok ⟨"User retrieved successfully",
           [("id", some profP), ("full_name", some "Prof P"),
            ("email", some "p@x.com"), ("profile", some "professional"),
            ("admin_id", some adminA), ("status", some "active"),
            ("created_at", some "2024")], 200⟩
    ∧ profP ≠ claimsC2B.user_id
    ∧ claimsC2B.user_id ≠ adminA := by
  decide

/-- C2 amended: the read and update routes pass the caller to the service
exactly when the target id equals the caller's id or the caller's profile is
administrator — the target's `admin_id` is never consulted — and reject every
other caller with 403, leaving the state unchanged. -/
theorem c2_user_access_gate (db : DB) (caller : Claims) (uid : String)
    (validator : String → Bool) (hashPassword : String → String)
    (p : UpdateUserPayload) :
    ((uid = caller.user_id ∨ caller.profile = "administrator") →
      UserController.get_user_by_id db caller uid =
        UserService.get_user_by_id db uid ∧
      UserController.update_user db validator hashPassword caller uid p =
        UserService.update_user db validator hashPassword uid p)
    ∧ (¬(uid = caller.user_id ∨ caller.profile = "administrator") →
      UserController.get_user_by_id db caller uid =
        .error ⟨403, "You do not have permission to access this user data"⟩ ∧
      UserController.update_user db validator hashPassword caller uid p =
        (.error ⟨403, "You do not have permission to update this user data"⟩, db)) := by
  constructor
  · intro h
    have hg := (can_access_user_route_iff caller uid).mpr h
    constructor
    · simp [UserController.get_user_by_id, hg]
    · simp [UserController.update_user, hg]
  · intro h
    have hg : UserController.can_access_user_route caller uid = false := by
      cases hb : UserController.can_access_user_route caller uid
      · rfl
      · exact absurd ((can_access_user_route_iff caller uid).mp hb) h
    constructor
    · simp [UserController.get_user_by_id, hg]
    · simp [UserController.update_user, hg]

/-- Witness for the C2 amended theorem: a self-read passes the gate and a
cross-tenant non-administrator caller is rejected 403. -/
theorem c2_user_access_gate_witness :
    UserController.get_user_by_id dbC2 claimsC1P profP =
      UserService.get_user_by_id dbC2 profP
    ∧ UserController.get_user_by_id dbC2
        ⟨profQ, "Prof Q", "q@x.com", "professional", some adminB⟩ profP =
      .error ⟨403, "You do not have permission to access this user data"⟩ := by
  refine ⟨?_, ?_⟩
  · exact ((c2_user_access_gate dbC2 claimsC1P profP (fun _ => true) id
      {}).1 (Or.inl rfl)).1
  · exact ((c2_user_access_gate dbC2
      ⟨profQ, "Prof Q", "q@x.com", "professional", some adminB⟩ profP
      (fun _ => true) id {}).2 (by decide)).1

/-- C3: for every existing attendance and every existing caller, update and
delete are rejected 403 exactly when the caller is neither the attendance's
professional nor an administrator; no comparison of an administrator's id
with the attendance's `admin_id` is involved. -/
theorem c3_can_mutate_attendance (db : DB) (attendance_id caller_id u : String)
    (a : AttendanceRow) (prof : UserRow) (p : UpdateAttendancePayload)
    (h1 : normUUID attendance_id = some u)
    (h2 : db.attendances.find? (fun r => r.id == u) = some a)
    (h3 : UserRepository.get_user_by_id db caller_id = some prof) :
    (errCode (AttendanceService.update_attendance db attendance_id p caller_id).1 =
        some 403 ↔
      ¬(prof.id = a.professional_id ∨ prof.profile = "administrator"))
    ∧ (errCode (AttendanceService.delete_attendance db attendance_id caller_id).1 =
        some 403 ↔
      ¬(prof.id = a.professional_id ∨ prof.profile = "administrator")) := by
  have hget : AttendanceRepository.get_attendance_by_id db attendance_id =
      some (attendanceDictOf db a) := by
    simp [AttendanceRepository.get_attendance_by_id, h1, h2]
  have hdict : (attendanceDictOf db a).professional_id = a.professional_id := rfl
  by_cases hperm : prof.id = a.professional_id ∨ prof.profile = "administrator"
  · have hcm : AttendanceService.canMutate prof (attendanceDictOf db a) = true :=
      (canMutate_iff prof (attendanceDictOf db a)).mpr (hdict ▸ hperm)
    constructor
    · simp only [AttendanceService.update_attendance, hget, h3, hcm,
        Bool.not_true]
      constructor
      · intro hcode
        exfalso
        revert hcode
        simp only [Bool.false_eq_true, if_false]
        split
        · simp [errCode]
        · split
          · split
            · simp [errCode]
            · split
              · simp [errCode]
              · unfold AttendanceService.update_attendance.update_attendance_write
                split
                split <;> simp [errCode]
          · unfold AttendanceService.update_attendance.update_attendance_write
            split
            split <;> simp [errCode]
      · intro hcontra
        exact absurd hperm hcontra
    · simp only [AttendanceService.delete_attendance, hget, h3, hcm,
        Bool.not_true]
      constructor
      · intro hcode
        exfalso
        revert hcode
        simp only [Bool.false_eq_true, if_false]
        split <;> simp [errCode]
      · intro hcontra
        exact absurd hperm hcontra
  · have hcm : AttendanceService.canMutate prof (attendanceDictOf db a) = false := by
      cases hb : AttendanceService.canMutate prof (attendanceDictOf db a)
      · rfl
      · exact absurd (hdict ▸ (canMutate_iff prof (attendanceDictOf db a)).mp hb)
          hperm
    constructor
    · simp [AttendanceService.update_attendance, hget, h3, hcm, errCode, hperm]
    · simp [AttendanceService.delete_attendance, hget, h3, hcm, errCode, hperm]

/-- Witness for C3: tenant A's professional is denied mutation of tenant B's
attendance (both directions of the characterization at a concrete input). -/
theorem c3_can_mutate_attendance_witness :
    errCode (AttendanceService.update_attendance dbC1 attB
      { model_result := some "changed2" } profP).1 = some 403
    ∧ errCode (AttendanceService.delete_attendance dbC1 attB profQ).1 ≠
      some 403 := by
  have h1 := c3_can_mutate_attendance dbC1 attB profP attB
    ⟨attB, profQ, huB, adminB, "respiratory", "positive", none, none, "imgB",
     5, none⟩
    ⟨profP, "Prof P", "p@x.com", "hp", "professional", some adminA, "active",
     "2024"⟩
    { model_result := some "changed2" } (by decide) (by decide) (by decide)
  have h2 := c3_can_mutate_attendance dbC1 attB profQ attB
    ⟨attB, profQ, huB, adminB, "respiratory", "positive", none, none, "imgB",
     5, none⟩
    ⟨profQ, "Prof Q", "q@x.com", "hq", "professional", some adminB, "active",
     "2024"⟩
    { model_result := some "changed2" } (by decide) (by decide) (by decide)
  refine ⟨h1.1.mpr (by decide), ?_⟩
  intro hcontra
  exact absurd (h2.2.mp hcontra) (by decide)

/-- Sample decoded claims used for the middleware scenarios. -/
def claimsC4 : Claims := ⟨profP, "Prof P", "p@x.com", "professional", some adminA⟩

/-- Sample decode function accepting exactly one raw token. -/
def decodeC4 : String → Except TokenErr Claims := fun t =>
  if t == "raw.jwt.token" then .ok claimsC4 else .error (.invalid "bad")

/-- C4 counterexample: an Authorization header that is not of the form
`Bearer token` is not rejected as malformed — the raw header value is used
as the token, and a valid raw token is admitted, where the claim requires a
401 MalformedHeader rejection. -/
theorem c4_raw_header_admitted :
    AuthMiddleware.verify_token decodeC4 (some "raw.jwt.token") = .ok claimsC4
    ∧ (("Bearer ".toList).isPrefixOf "raw.jwt.token".toList) = false := by
  decide

/-- C4 amended: a missing (or empty) Authorization header is rejected 401
MissingToken; a header not in `Bearer token` form is not rejected as
malformed — the entire header value is treated as the token, so the request
is admitted when that raw value verifies and rejected 401 only through the
verification failure. -/
theorem c4_bearer_extraction (decode : String → Except TokenErr Claims) :
    AuthMiddleware.verify_token decode none =
      .error ⟨401, "Authorization token is required"⟩
    ∧ AuthMiddleware.verify_token decode (some "") =
      .error ⟨401, "Authorization token is required"⟩
    ∧ (∀ h c, (("Bearer ".toList).isPrefixOf h.toList) = false → h ≠ "" →
        decode h = .ok c →
        AuthMiddleware.verify_token decode (some h) = .ok c)
    ∧ (∀ h e, (("Bearer ".toList).isPrefixOf h.toList) = false → h ≠ "" →
        decode h = .error e →
        ∃ m, AuthMiddleware.verify_token decode (some h) =
          .error ⟨401, m⟩) := by
  refine ⟨rfl, rfl, ?_, ?_⟩
  · intro h c hpre hne hdec
    have hbeq : (h == "") = false := beq_eq_false_iff_ne.mpr hne
    simp only [AuthMiddleware.verify_token, AuthMiddleware.extractToken, hbeq,
      hpre, Bool.false_eq_true, if_false, hdec]
  · intro h e hpre hne hdec
    have hbeq : (h == "") = false := beq_eq_false_iff_ne.mpr hne
    cases e with
    | expired =>
      exact ⟨"Token has expired", by
        simp only [AuthMiddleware.verify_token, AuthMiddleware.extractToken,
          hbeq, hpre, Bool.false_eq_true, if_false, hdec]⟩
    | invalid m =>
      exact ⟨"Invalid token: " ++ m, by
        simp only [AuthMiddleware.verify_token, AuthMiddleware.extractToken,
          hbeq, hpre, Bool.false_eq_true, if_false, hdec]⟩

/-- Witness for the C4 amended theorem: the raw-token conjunct applied at a
concrete decode function and header. -/
theorem c4_bearer_extraction_witness :
    AuthMiddleware.verify_token decodeC4 (some "raw.jwt.token") = .ok claimsC4
    ∧ ∃ m, AuthMiddleware.verify_token decodeC4 (some "other.token") =
      .error ⟨401, m⟩ := by
  refine ⟨?_, ?_⟩
  · exact (c4_bearer_extraction decodeC4).2.2.1 "raw.jwt.token" claimsC4
      (by decide) (by decide) (by decide)
  · exact (c4_bearer_extraction decodeC4).2.2.2 "other.token" (.invalid "bad")
      (by decide) (by decide) (by decide)

/-- Sample respiratory attendance id of tenant A, owned by `profP`. -/
def attR : String := "77777777777777777777777777777777"

/-- Database with a single non-breast (respiratory) attendance owned by
tenant A's professional. -/
def dbC5 : DB :=
  { users := [
      ⟨adminA, "Admin A", "a@x.com", "ha", "administrator", none, "active", "2024"⟩,
      ⟨profP, "Prof P", "p@x.com", "hp", "professional", some adminA, "active", "2024"⟩],
    health_units := [⟨huA, "Unit A", adminA, "active"⟩],
    attendances := [⟨attR, profP, huA, adminA, "respiratory", "positive", none,
                     none, "imgR", 3, none⟩],
    boxes := [],
    next_id := 0 }

/-- A box payload carrying all four required coordinates. -/
def fullBox : BoxPayload :=
  { x := some 1, y := some 2, width := some 3, height := some 4 }

/-- C5 counterexample: on a stored non-breast attendance, a payload carrying
bounding boxes together with `model_used = respiratory` — which does NOT
change the model to `breast` — is accepted (HTTP 200) where the claim
requires a 400 rejection; and a payload that does change `model_used` to
`breast` is accepted but persists neither the model change nor any box: the
stored model stays `respiratory` and the box table stays empty. -/
theorem c5_box_update_rule_refuted :
    errCode (AttendanceService.update_attendance dbC5 attR
      { model_used := some "respiratory", model_result := some "r2",
        bounding_boxes := some [fullBox] } profP).1 = none
    ∧ errCode (AttendanceService.update_attendance dbC5 attR
        { model_used := some "breast", model_result := some "r2",
          bounding_boxes := some [fullBox] } profP).1 = none
    ∧ boxesFor (AttendanceService.update_attendance dbC5 attR
        { model_used := some "breast", model_result := some "r2",
          bounding_boxes := some [fullBox] } profP).2 attR = []
    ∧ ((AttendanceService.update_attendance dbC5 attR
        { model_used := some "breast", model_result := some "r2",
          bounding_boxes := some [fullBox] } profP).2.attendances.map
          (fun r => r.model_used)) = ["respiratory"] := by
  decide

/-- C5 amended: a bounding-box payload against a stored non-breast
attendance is rejected 400 exactly when the payload carries no `model_used`
key; when it carries any valid `model_used` (`breast` included) and
well-formed boxes the request passes the 400 checks, but the repository
never updates `model_used` and only touches boxes when the STORED model is
`breast`, so the box table and every stored model value are left
unchanged. -/
theorem c5_box_update_rule (db : DB) (attendance_id caller_id u : String)
    (a : AttendanceRow) (prof : UserRow) (p : UpdateAttendancePayload)
    (bs : List BoxPayload)
    (h1 : normUUID attendance_id = some u)
    (h2 : db.attendances.find? (fun r => r.id == u) = some a)
    (h3 : (a.model_used == "breast") = false)
    (h4 : UserRepository.get_user_by_id db caller_id = some prof)
    (h5 : AttendanceService.canMutate prof (attendanceDictOf db a) = true)
    (h6 : p.bounding_boxes = some bs) :
    (p.model_used = none →
      AttendanceService.update_attendance db attendance_id p caller_id =
        (.error ⟨400, "Bounding boxes can only be added to breast cancer model attendances"⟩, db))
    ∧ (∀ m, p.model_used = some m → valid_models.contains m = true →
        bs.all boxFieldsOk = true →
        errCode (AttendanceService.update_attendance db attendance_id p
          caller_id).1 ≠ some 400
        ∧ (AttendanceService.update_attendance db attendance_id p
            caller_id).2.boxes = db.boxes
        ∧ ((AttendanceService.update_attendance db attendance_id p
            caller_id).2.attendances.map (fun r => (r.id, r.model_used))) =
          db.attendances.map (fun r => (r.id, r.model_used))) := by
  have hget : AttendanceRepository.get_attendance_by_id db attendance_id =
      some (attendanceDictOf db a) := by
    simp [AttendanceRepository.get_attendance_by_id, h1, h2]
  have hbne : ((attendanceDictOf db a).model_used != "breast") = true := by
    simp only [attendanceDictOf]
    simp [bne, h3]
  constructor
  · intro hm
    simp [AttendanceService.update_attendance, hget, h4, h5, hm, h6, hbne]
  · intro m hm hv hall
    have hv2 : m ∈ valid_models := by simpa using hv
    · have hres : AttendanceService.update_attendance db attendance_id p
          caller_id =
          AttendanceService.update_attendance.update_attendance_write db
            attendance_id p := by
        simp [AttendanceService.update_attendance, hget, h4, h5, hm, h6, hv2,
          hall]
      rw [hres]
      rcases hrw : AttendanceRepository.update_attendance db attendance_id p
        with ⟨r, db2⟩
      have hboxes := update_attendance_boxes_nonbreast db attendance_id p u a
        h1 h2 h3
      have hids := update_attendance_ids_models db attendance_id p
      rw [hrw] at hboxes hids
      have hw2 : AttendanceService.update_attendance.update_attendance_write
          db attendance_id p =
          if r.ok = true then
            (.ok { message := "Attendance updated successfully",
                   attendance_id := attendance_id, status_code := 200 }, db2)
          else (.error ⟨500, "Failed to update attendance"⟩, db2) := by
        unfold AttendanceService.update_attendance.update_attendance_write
        rw [hrw]
      rw [hw2]
      split
      · exact ⟨by simp [errCode], hboxes, hids⟩
      · exact ⟨by simp [errCode], hboxes, hids⟩

/-- Witness for the C5 amended theorem: the no-model-key payload is rejected
400 and the with-model-key payload leaves boxes and stored models unchanged,
at a concrete input. -/
theorem c5_box_update_rule_witness :
    AttendanceService.update_attendance dbC5 attR
      { bounding_boxes := some [fullBox] } profP =
      (.error ⟨400, "Bounding boxes can only be added to breast cancer model attendances"⟩, dbC5)
    ∧ (AttendanceService.update_attendance dbC5 attR
        { model_used := some "breast", model_result := some "r3",
          bounding_boxes := some [fullBox] } profP).2.boxes = dbC5.boxes := by
  constructor
  · exact (c5_box_update_rule dbC5 attR profP attR
      ⟨attR, profP, huA, adminA, "respiratory", "positive", none, none,
       "imgR", 3, none⟩
      ⟨profP, "Prof P", "p@x.com", "hp", "professional", some adminA,
       "active", "2024"⟩
      { bounding_boxes := some [fullBox] } [fullBox]
      (by decide) (by decide) (by decide) (by decide) (by decide) rfl).1 rfl
  · exact ((c5_box_update_rule dbC5 attR profP attR
      ⟨attR, profP, huA, adminA, "respiratory", "positive", none, none,
       "imgR", 3, none⟩
      ⟨profP, "Prof P", "p@x.com", "hp", "professional", some adminA,
       "active", "2024"⟩
      { model_used := some "breast", model_result := some "r3",
        bounding_boxes := some [fullBox] } [fullBox]
      (by decide) (by decide) (by decide) (by decide) (by decide) rfl).2
      "breast" rfl (by decide) (by decide)).2.1

/-- The attendance UPDATE on a stored breast row with at least one settable
column: the row is updated and the box table is fully replaced for that row
(old boxes deleted, payload boxes inserted). -/
theorem update_attendance_breast_replaces (db : DB) (attendance_id u : String)
    (a : AttendanceRow) (p : UpdateAttendancePayload) (bs : List BoxPayload)
    (pp hp ap : Option String)
    (h1 : normUUID attendance_id = some u)
    (h2 : db.attendances.find? (fun r => r.id == u) = some a)
    (h3 : a.model_used = "breast")
    (h6 : p.bounding_boxes = some bs)
    (h9 : parseOptUUIDField p.professional_id = some pp)
    (h10 : parseOptUUIDField p.health_unit_id = some hp)
    (h11 : parseOptUUIDField p.admin_id = some ap)
    (hparts : hasUpdateParts pp hp ap p = true) :
    AttendanceRepository.update_attendance db attendance_id p =
      (⟨attendance_id, true⟩,
       { db with
         attendances := db.attendances.map (fun r =>
           if r.id == u then applyScalarUpdates r pp hp ap p else r),
         boxes := db.boxes.filter (fun b => b.attendance_id != u) ++
           bs.map (mkBoxRow u) }) := by
  simp only [AttendanceRepository.update_attendance, h1, h9, h10, h11, h2, h3,
    h6, hparts]
  rfl

/-- The attendance UPDATE with no settable column reports not-updated and
leaves the state unchanged. -/
theorem update_attendance_no_parts (db : DB) (attendance_id u : String)
    (a : AttendanceRow) (p : UpdateAttendancePayload)
    (pp hp ap : Option String)
    (h1 : normUUID attendance_id = some u)
    (h2 : db.attendances.find? (fun r => r.id == u) = some a)
    (h3 : a.model_used = "breast")
    (h9 : parseOptUUIDField p.professional_id = some pp)
    (h10 : parseOptUUIDField p.health_unit_id = some hp)
    (h11 : parseOptUUIDField p.admin_id = some ap)
    (hparts : hasUpdateParts pp hp ap p = false) :
    AttendanceRepository.update_attendance db attendance_id p =
      (⟨attendance_id, false⟩, db) := by
  simp only [AttendanceRepository.update_attendance, h1, h9, h10, h11, h2, h3,
    hparts]
  rfl

/-- Selecting the boxes of one attendance after a full replacement returns
exactly the inserted boxes. -/
theorem boxesFor_replace (l : List BoxRow) (u : String) (bs : List BoxPayload) :
    (l.filter (fun b => b.attendance_id != u) ++
      bs.map (mkBoxRow u)).filter (fun b => b.attendance_id == u) =
    bs.map (mkBoxRow u) := by
  rw [List.filter_append]
  have hleft : (l.filter (fun b => b.attendance_id != u)).filter
      (fun b => b.attendance_id == u) = [] := by
    induction l with
    | nil => rfl
    | cons b t ih =>
      by_cases hb : b.attendance_id == u
      · simp only [List.filter]
        rw [show (b.attendance_id != u) = false by simp [bne, hb]]
        exact ih
      · simp only [List.filter]
        rw [show (b.attendance_id != u) = true by simp [bne, hb]]
        simp only [List.filter]
        rw [show (b.attendance_id == u) = false by simp [hb]]
        exact ih
  have hright : (bs.map (mkBoxRow u)).filter
      (fun b => b.attendance_id == u) = bs.map (mkBoxRow u) := by
    apply List.filter_eq_self.mpr
    intro b hb
    rcases List.mem_map.mp hb with ⟨x, _, hx⟩
    subst hx
    simp [mkBoxRow]
  rw [hleft, hright, List.nil_append]

/-- Sample breast attendance id of tenant A, owned by `profP`. -/
def attBr : String := "88888888888888888888888888888888"

/-- Database with one breast attendance holding two stored bounding boxes. -/
def dbC6 : DB :=
  { users := [
      ⟨adminA, "Admin A", "a@x.com", "ha", "administrator", none, "active", "2024"⟩,
      ⟨profP, "Prof P", "p@x.com", "hp", "professional", some adminA, "active", "2024"⟩],
    health_units := [⟨huA, "Unit A", adminA, "active"⟩],
    attendances := [⟨attBr, profP, huA, adminA, "breast", "positive", none,
                     none, "imgBr", 4, none⟩],
    boxes := [⟨"b1", attBr, 1, 1, 10, 10, 0, none⟩,
              ⟨"b2", attBr, 2, 2, 20, 20, 0, none⟩],
    next_id := 0 }

/-- C6 counterexample: a payload carrying only bounding boxes (M = 1) against
a breast attendance holding 2 boxes is claimed to leave exactly 1 box; the
code instead reports the update failed (500) and leaves both old boxes in
place, because the repository finds no settable scalar column. -/
theorem c6_box_only_update_fails :
    AttendanceService.update_attendance dbC6 attBr
      { bounding_boxes := some [fullBox] } profP =
      (.error ⟨500, "Failed to update attendance"⟩, dbC6)
    ∧ (boxesFor dbC6 attBr).length = 2 := by
  decide

/-- C6 amended: on a stored breast attendance, a well-formed update payload
carrying M bounding boxes together with at least one settable scalar column
succeeds and leaves exactly the M new boxes (the old set fully deleted, the
new set inserted, never merged); a payload carrying only bounding boxes and
no other settable field is reported not updated — the service fails 500 —
and leaves the state, boxes included, unchanged. -/
theorem c6_replace_on_update (db : DB) (attendance_id caller_id u : String)
    (a : AttendanceRow) (prof : UserRow) (p : UpdateAttendancePayload)
    (bs : List BoxPayload) (pp hp ap : Option String)
    (h1 : normUUID attendance_id = some u)
    (h2 : db.attendances.find? (fun r => r.id == u) = some a)
    (h3 : a.model_used = "breast")
    (h4 : UserRepository.get_user_by_id db caller_id = some prof)
    (h5 : AttendanceService.canMutate prof (attendanceDictOf db a) = true)
    (h6 : p.bounding_boxes = some bs)
    (h7 : bs.all boxFieldsOk = true)
    (h8 : p.model_used = none)
    (h9 : parseOptUUIDField p.professional_id = some pp)
    (h10 : parseOptUUIDField p.health_unit_id = some hp)
    (h11 : parseOptUUIDField p.admin_id = some ap) :
    (hasUpdateParts pp hp ap p = true →
      errCode (AttendanceService.update_attendance db attendance_id p
        caller_id).1 = none
      ∧ boxesFor (AttendanceService.update_attendance db attendance_id p
          caller_id).2 u = bs.map (mkBoxRow u))
    ∧ (hasUpdateParts pp hp ap p = false →
      AttendanceService.update_attendance db attendance_id p caller_id =
        (.error ⟨500, "Failed to update attendance"⟩, db)) := by
  have hget : AttendanceRepository.get_attendance_by_id db attendance_id =
      some (attendanceDictOf db a) := by
    simp [AttendanceRepository.get_attendance_by_id, h1, h2]
  have hdictm : (attendanceDictOf db a).model_used = "breast" := h3
  have hres : AttendanceService.update_attendance db attendance_id p
      caller_id =
      AttendanceService.update_attendance.update_attendance_write db
        attendance_id p := by
    simp [AttendanceService.update_attendance, hget, h4, h5, h8, h6, h7,
      hdictm]
  constructor
  · intro hparts
    have hrepo := update_attendance_breast_replaces db attendance_id u a p bs
      pp hp ap h1 h2 h3 h6 h9 h10 h11 hparts
    have hw2 : AttendanceService.update_attendance.update_attendance_write
        db attendance_id p =
        (.ok { message := "Attendance updated successfully",
               attendance_id := attendance_id, status_code := 200 },
         { db with
           attendances := db.attendances.map (fun r =>
             if r.id == u then applyScalarUpdates r pp hp ap p else r),
           boxes := db.boxes.filter (fun b => b.attendance_id != u) ++
             bs.map (mkBoxRow u) }) := by
      unfold AttendanceService.update_attendance.update_attendance_write
      rw [hrepo]
      rfl
    rw [hres, hw2]
    exact ⟨rfl, boxesFor_replace db.boxes u bs⟩
  · intro hparts
    have hrepo := update_attendance_no_parts db attendance_id u a p pp hp ap
      h1 h2 h3 h9 h10 h11 hparts
    have hw2 : AttendanceService.update_attendance.update_attendance_write
        db attendance_id p =
        (.error ⟨500, "Failed to update attendance"⟩, db) := by
      unfold AttendanceService.update_attendance.update_attendance_write
      rw [hrepo]
      rfl
    rw [hres, hw2]

/-- Witness for the C6 amended theorem: with `model_result` also set, one new
box replaces the two stored ones; with a boxes-only payload the update fails
500 and the state is unchanged, at a concrete input. -/
theorem c6_replace_on_update_witness :
    (errCode (AttendanceService.update_attendance dbC6 attBr
        { model_result := some "mr2", bounding_boxes := some [fullBox] }
        profP).1 = none
     ∧ boxesFor (AttendanceService.update_attendance dbC6 attBr
        { model_result := some "mr2", bounding_boxes := some [fullBox] }
        profP).2 attBr = [fullBox].map (mkBoxRow attBr))
    ∧ AttendanceService.update_attendance dbC6 attBr
        { bounding_boxes := some [fullBox] } profP =
      (.error ⟨500, "Failed to update attendance"⟩, dbC6) := by
  constructor
  · exact (c6_replace_on_update dbC6 attBr profP attBr
      ⟨attBr, profP, huA, adminA, "breast", "positive", none, none, "imgBr",
       4, none⟩
      ⟨profP, "Prof P", "p@x.com", "hp", "professional", some adminA,
       "active", "2024"⟩
      { model_result := some "mr2", bounding_boxes := some [fullBox] }
      [fullBox] none none none
      (by decide) (by decide) (by decide) (by decide) (by decide) rfl
      (by decide) rfl (by decide) (by decide) (by decide)).1 (by decide)
  · exact (c6_replace_on_update dbC6 attBr profP attBr
      ⟨attBr, profP, huA, adminA, "breast", "positive", none, none, "imgBr",
       4, none⟩
      ⟨profP, "Prof P", "p@x.com", "hp", "professional", some adminA,
       "active", "2024"⟩
      { bounding_boxes := some [fullBox] } [fullBox] none none none
      (by decide) (by decide) (by decide) (by decide) (by decide) rfl
      (by decide) rfl (by decide) (by decide) (by decide)).2 (by decide)

/-- C7: login resolves the user by email (404 when absent); an inactive user
is rejected 403 whatever the password and whatever the verifier — the stored
hash is never consulted; an active user with a failing password verification
is rejected 401; otherwise a token is issued carrying the stored profile and
admin_id. -/
theorem c7_login_flow :
    (∀ (db : DB) (verifyPassword : String → String → Bool) (email pw : String),
      UserRepository.get_user_by_email db email = none →
      UserService.login_user db verifyPassword email pw =
        .error ⟨404, "User not found"⟩)
    ∧ (∀ (db : DB) (u : UserRow) (email : String),
      UserRepository.get_user_by_email db email = some u →
      u.status ≠ "active" →
      ∀ (verifyPassword : String → String → Bool) (pw : String),
        UserService.login_user db verifyPassword email pw =
          .error ⟨403, "User account is inactive"⟩)
    ∧ (∀ (db : DB) (u : UserRow) (verifyPassword : String → String → Bool)
        (email pw : String),
      UserRepository.get_user_by_email db email = some u →
      u.status = "active" →
      verifyPassword pw u.password_hash = false →
      UserService.login_user db verifyPassword email pw =
        .error ⟨401, "Incorrect password"⟩)
    ∧ (∀ (db : DB) (u : UserRow) (verifyPassword : String → String → Bool)
        (email pw : String),
      UserRepository.get_user_by_email db email = some u →
      u.status = "active" →
      verifyPassword pw u.password_hash = true →
      ∃ r, UserService.login_user db verifyPassword email pw = .ok r
        ∧ r.token.profile = u.profile
        ∧ r.token.admin_id = u.admin_id
        ∧ r.status_code = 200) := by
  refine ⟨?_, ?_, ?_, ?_⟩
  · intro db verifyPassword email pw hfind
    simp [UserService.login_user, hfind]
  · intro db u email hfind hstatus verifyPassword pw
    have hbne : (u.status != "active") = true := by
      simp [bne, hstatus]
    simp [UserService.login_user, hfind, hbne]
  · intro db u verifyPassword email pw hfind hstatus hverify
    simp [UserService.login_user, hfind, hstatus, hverify]
  · intro db u verifyPassword email pw hfind hstatus hverify
    refine ⟨{ message := "Login successful", user_name := u.full_name,
              user_id := u.id, profile := u.profile,
              token := TokenAdapter.create_token u.id u.full_name email
                u.profile u.admin_id,
              status_code := 200 }, ?_, rfl, rfl, rfl⟩
    simp [UserService.login_user, hfind, hstatus, hverify]

/-- Two-user database for the login scenarios: an active administrator and
an inactive professional. -/
def dbC7 : DB :=
  { users := [
      ⟨adminA, "Admin A", "a@x.com", "hashA", "administrator", none, "active", "2024"⟩,
      ⟨profP, "Prof P", "p@x.com", "hashP", "professional", some adminA, "inactive", "2024"⟩],
    health_units := [], attendances := [], boxes := [], next_id := 0 }

/-- Sample password verifier: accepts exactly the pair (secret, hashA). -/
def verifyC7 : String → String → Bool := fun pw hs =>
  pw == "secret" && hs == "hashA"

/-- Witness for C7: at a concrete store, a correct login issues a token with
the stored profile and admin_id; the inactive user gets 403 even under a
verifier that accepts everything; a wrong password gets 401; an unknown
email gets 404. -/
theorem c7_login_flow_witness :
    (∃ r, UserService.login_user dbC7 verifyC7 "a@x.com" "secret" = .ok r
      ∧ r.token.profile = "administrator" ∧ r.token.admin_id = none
      ∧ r.status_code = 200)
    ∧ UserService.login_user dbC7 (fun _ _ => true) "p@x.com" "anything" =
      .error ⟨403, "User account is inactive"⟩
    ∧ UserService.login_user dbC7 verifyC7 "a@x.com" "wrong" =
      .error ⟨401, "Incorrect password"⟩
    ∧ UserService.login_user dbC7 verifyC7 "ghost@x.com" "secret" =
      .error ⟨404, "User not found"⟩ := by
  refine ⟨?_, ?_, ?_, ?_⟩
  · exact c7_login_flow.2.2.2 dbC7
      ⟨adminA, "Admin A", "a@x.com", "hashA", "administrator", none,
       "active", "2024"⟩
      verifyC7 "a@x.com" "secret" (by decide) rfl (by decide)
  · exact c7_login_flow.2.1 dbC7
      ⟨profP, "Prof P", "p@x.com", "hashP", "professional", some adminA,
       "inactive", "2024"⟩
      "p@x.com" (by decide) (by decide) (fun _ _ => true) "anything"
  · exact c7_login_flow.2.2.1 dbC7
      ⟨adminA, "Admin A", "a@x.com", "hashA", "administrator", none,
       "active", "2024"⟩
      verifyC7 "a@x.com" "wrong" (by decide) rfl (by decide)
  · exact c7_login_flow.1 dbC7 verifyC7 "ghost@x.com" "secret" (by decide)

/-- C8: an add-attendance request by an existing professional with an owning
administrator and a matching health unit, whose `model_used` is outside the
enumeration, fails 422 and leaves the database — stored attendances
included — exactly as it was: the model check precedes every persistence
call. -/
theorem c8_invalid_model_no_write (db : DB) (data : CreateAttendancePayload)
    (professional_id admin_id : String) (prof : UserRow) (hu : HealthUnitRow)
    (h1 : UserRepository.get_user_by_id db professional_id = some prof)
    (h2 : prof.profile = "professional")
    (h3 : prof.admin_id = some admin_id)
    (h4 : admin_id ≠ "")
    (h5 : HealthUnitRepository.get_health_unit_by_id db data.health_unit_id =
      some hu)
    (h6 : hu.admin_id = admin_id)
    (h7 : valid_models.contains data.model_used = false) :
    AttendanceService.add_attendance db data professional_id =
      (.error ⟨422, "Invalid model"⟩, db) := by
  have hne : data.health_unit_id ≠ "" := by
    intro hempty
    rw [hempty] at h5
    simp [HealthUnitRepository.get_health_unit_by_id,
      show normUUID "" = none from rfl] at h5
  have hprof2 : (prof.profile != "professional") = false := by
    simp [bne, h2]
  have hadm : (admin_id == "") = false := beq_eq_false_iff_ne.mpr h4
  have hhu : (data.health_unit_id == "") = false := beq_eq_false_iff_ne.mpr hne
  have hmatch : (hu.admin_id != admin_id) = false := by
    simp [bne, h6]
  have hm2 : data.model_used ∉ valid_models := by
    simpa using h7
  simp [AttendanceService.add_attendance, h1, hprof2, h3, hadm, hhu, h5,
    hmatch, hm2]

/-- Database for the C8 scenario: tenant A's professional and health unit. -/
def dbC8 : DB :=
  { users := [
      ⟨adminA, "Admin A", "a@x.com", "ha", "administrator", none, "active", "2024"⟩,
      ⟨profP, "Prof P", "p@x.com", "hp", "professional", some adminA, "active", "2024"⟩],
    health_units := [⟨huA, "Unit A", adminA, "active"⟩],
    attendances := [], boxes := [], next_id := 0 }

/-- Witness for C8: at a concrete store, `model_used = xray` is rejected 422
and the state is returned unchanged. -/
theorem c8_invalid_model_no_write_witness :
    AttendanceService.add_attendance dbC8
      { health_unit_id := huA, model_used := "xray",
        model_result := "positive", image_base64 := "img" } profP =
      (.error ⟨422, "Invalid model"⟩, dbC8) := by
  exact c8_invalid_model_no_write dbC8
    { health_unit_id := huA, model_used := "xray",
      model_result := "positive", image_base64 := "img" }
    profP adminA
    ⟨profP, "Prof P", "p@x.com", "hp", "professional", some adminA, "active",
     "2024"⟩
    ⟨huA, "Unit A", adminA, "active"⟩
    (by decide) rfl rfl (by decide) (by decide) rfl (by decide)

/-- Two-tenant database with one attendance per tenant, for the filter
scenarios. -/
def dbC9 : DB :=
  { users := [
      ⟨adminA, "Admin A", "a@x.com", "ha", "administrator", none, "active", "2024"⟩,
      ⟨adminB, "Admin B", "b@x.com", "hb", "administrator", none, "active", "2024"⟩],
    health_units := [⟨huA, "Unit A", adminA, "active"⟩,
                     ⟨huB, "Unit B", adminB, "active"⟩],
    attendances := [⟨attA, profP, huA, adminA, "respiratory", "r1", none,
                     none, "img1", 5, none⟩,
                    ⟨attB, profQ, huB, adminB, "respiratory", "r2", none,
                     none, "img2", 9, none⟩],
    boxes := [], next_id := 0 }

/-- C9 counterexample: a list-attendances call whose admin filter is not a
valid UUID is not rejected — the query runs with the filter silently dropped
and returns both tenants' attendances, widening the scope. -/
theorem c9_malformed_filter_widens_scope :
    normUUID "not-a-uuid" = none
    ∧ ((AttendanceRepository.get_attendances dbC9 (some "not-a-uuid") none
        none none 100 0).map (fun d => d.admin_id)) = [adminB, adminA]
    ∧ adminA ≠ adminB := by
  decide

/-- C9 amended: the single-item operations reject a malformed UUID before
any storage access — the repository returns not-found or a failed write with
the state unchanged — but the list operation does not: each malformed filter
identifier is silently dropped and the query executes without it, returning
the same rows as the unfiltered call. -/
theorem c9_malformed_identifiers :
    (∀ (db : DB) (s : String) (p : UpdateAttendancePayload),
      normUUID s = none →
      AttendanceRepository.get_attendance_by_id db s = none
      ∧ AttendanceRepository.update_attendance db s p = (⟨"", false⟩, db)
      ∧ AttendanceRepository.delete_attendance db s = (⟨"", false⟩, db))
    ∧ (∀ (db : DB) (hu pr m : Option String) (l o : Nat) (f : String),
      normUUID f = none →
      AttendanceRepository.get_attendances db (some f) hu pr m l o =
        AttendanceRepository.get_attendances db none hu pr m l o)
    ∧ (∀ (db : DB) (ad pr m : Option String) (l o : Nat) (f : String),
      normUUID f = none →
      AttendanceRepository.get_attendances db ad (some f) pr m l o =
        AttendanceRepository.get_attendances db ad none pr m l o)
    ∧ (∀ (db : DB) (ad hu m : Option String) (l o : Nat) (f : String),
      normUUID f = none →
      AttendanceRepository.get_attendances db ad hu (some f) m l o =
        AttendanceRepository.get_attendances db ad hu none m l o) := by
  have hfm : ∀ (field f : String), normUUID f = none →
      uuidFilterMatches field (some f) = uuidFilterMatches field none := by
    intro field f h
    by_cases hf : f = ""
    · simp [uuidFilterMatches, hf]
    · simp [uuidFilterMatches, beq_eq_false_iff_ne.mpr hf, h]
  refine ⟨?_, ?_, ?_, ?_⟩
  · intro db s p h
    refine ⟨?_, ?_, ?_⟩
    · simp [AttendanceRepository.get_attendance_by_id, h]
    · simp [AttendanceRepository.update_attendance, h]
    · simp [AttendanceRepository.delete_attendance, h]
  · intro db hu pr m l o f h
    simp [AttendanceRepository.get_attendances, hfm _ f h]
  · intro db ad pr m l o f h
    simp [AttendanceRepository.get_attendances, hfm _ f h]
  · intro db ad hu m l o f h
    simp [AttendanceRepository.get_attendances, hfm _ f h]

/-- Witness for the C9 amended theorem: at a concrete store, the single-item
read of a malformed id is rejected with not-found, while the list call with
the same malformed id as admin filter equals the unfiltered list call. -/
theorem c9_malformed_identifiers_witness :
    AttendanceRepository.get_attendance_by_id dbC9 "not-a-uuid" = none
    ∧ AttendanceRepository.get_attendances dbC9 (some "not-a-uuid") none none
        none 100 0 =
      AttendanceRepository.get_attendances dbC9 none none none none 100 0 := by
  refine ⟨?_, ?_⟩
  · exact (c9_malformed_identifiers.1 dbC9 "not-a-uuid" {} (by decide)).1
  · exact c9_malformed_identifiers.2.1 dbC9 none none none 100 0 "not-a-uuid"
      (by decide)

/-- C10: whatever the store and the caller-chosen filter, the list-users and
get-user-by-id responses never contain the `password_hash` key: the single
read strips it from the repository dictionary and the list projection never
selects it (and is filtered again by the service). -/
theorem c10_password_hash_never_returned :
    (∀ (db : DB) (uid : String) (r : UserService.GetUserOk),
      UserService.get_user_by_id db uid = .ok r →
      "password_hash" ∉ r.user.map Prod.fst)
    ∧ (∀ (db : DB) (a : Option String) (r : UserService.GetUsersOk),
      UserService.get_users db a = .ok r →
      ∀ d ∈ r.users, "password_hash" ∉ d.map Prod.fst) := by
  constructor
  · intro db uid r h
    cases hrepo : UserRepository.get_user_by_id db uid with
    | none =>
      rw [UserService.get_user_by_id, hrepo] at h
      exact absurd h (by simp)
    | some u =>
      rw [UserService.get_user_by_id, hrepo] at h
      injection h with h2
      subst h2
      exact key_not_mem_of_filter_ne "password_hash" (userByIdDict u)
  · intro db a r h d hd
    rw [UserService.get_users] at h
    injection h with h2
    subst h2
    rcases List.mem_map.mp hd with ⟨d0, _, hrfl⟩
    subst hrfl
    exact key_not_mem_of_filter_ne "password_hash" d0

/-- Witness for C10: the concrete single-user response carries every stored
column except `password_hash`. -/
theorem c10_password_hash_never_returned_witness :
    "password_hash" ∉
      (({ message := "User retrieved successfully",
          user := [("id", some adminA), ("full_name", some "Admin A"),
                   ("email", some "a@x.com"),
                   ("profile", some "administrator"), ("admin_id", none),
                   ("status", some "active"), ("created_at", some "2024")],
          status_code := 200 } : UserService.GetUserOk).user.map Prod.fst) := by
  exact c10_password_hash_never_returned.1 dbC7 adminA _ (by decide)

end ImageMedAI
